import Mathlib

/-!
Shallow embedding of the core pipeline of the `ai-act-tracker` repository
(files `src/extract.py`, `src/render.py`, `src/courtlistener.py`).

Python strings are modelled as Lean `String`; Python `str.lower()`, substring
tests (`in`), `str.split`, `str.strip`, `sorted(list(set(...)))` and string
comparison are modelled by executable char-list functions below, all matching
Python's code-point semantics (Python's `lower()` is full-Unicode while
`Char.toLower` is ASCII-only; every keyword in the tables below is already
lower-case ASCII or Korean, where the two coincide).  Timezone-aware UTC
datetimes are modelled as `Int` epoch seconds; `timedelta(days=n)` is
`n * 86400`; `datetime.date().isoformat()` is `dateISO` (civil-from-days).
External collaborators (HTTP page fetch, docket API, court API, parties API)
are passed in as explicit function parameters.
-/

/-- Model of Python string `<` (lexicographic on code points). -/
def charListLt : List Char → List Char → Bool
  | _, [] => false
  | [], _ :: _ => true
  | a :: as, b :: bs =>
      decide (a.toNat < b.toNat) || (decide (a.toNat = b.toNat) && charListLt as bs)

/-- Python `a < b` on strings. -/
def strLtB (a b : String) : Bool := charListLt a.toList b.toList

/-- Model of Python `str.lower()` (code-point-wise; ASCII case mapping). -/
def lowerStr (s : String) : String := String.mk (s.toList.map Char.toLower)

/-- `listPrefixOf p l` is true iff `p` is a prefix of `l`. -/
def listPrefixOf : List Char → List Char → Bool
  | [], _ => true
  | _ :: _, [] => false
  | a :: as, b :: bs => a == b && listPrefixOf as bs

/-- `listInfixOf p l` is true iff `p` occurs contiguously inside `l`. -/
def listInfixOf (pat : List Char) : List Char → Bool
  | [] => pat.isEmpty
  | c :: rest => listPrefixOf pat (c :: rest) || listInfixOf pat rest

/-- Model of Python `pat in hay` for strings (substring test). -/
def strContains (hay pat : String) : Bool := listInfixOf pat.toList hay.toList

/-- Model of Python `str.strip()` (leading/trailing whitespace removed). -/
def trimChars (s : String) : String :=
  String.mk (((s.toList.dropWhile Char.isWhitespace).reverse.dropWhile
      Char.isWhitespace).reverse)

/-- Split a char list at commas (model of Python `s.split(",")`). -/
def splitCommaAux : List Char → List Char → List String
  | [], cur => [String.mk cur.reverse]
  | c :: cs, cur =>
      if c = ',' then String.mk cur.reverse :: splitCommaAux cs []
      else splitCommaAux cs (c :: cur)

/-- Model of `[x.strip() for x in s.split(",") if x.strip()]`. -/
def splitKeywords (s : String) : List String :=
  ((splitCommaAux s.toList []).map trimChars).filter (fun x => x ≠ "")

/-- Model of Python `", ".join(l)` (any separator). -/
def joinSep (sep : String) : List String → String
  | [] => ""
  | [s] => s
  | s :: rest => s ++ sep ++ joinSep sep rest

/-- Insert a string into an (ascending) sorted list, Python `<` order. -/
def insertSorted (s : String) : List String → List String
  | [] => [s]
  | x :: xs => if strLtB s x then s :: x :: xs else x :: insertSorted s xs

/-- Insertion sort by Python string `<`. -/
def sortStrings (xs : List String) : List String := xs.foldr insertSorted []

/-- Model of Python `sorted(list(set(xs)))`: distinct elements in ascending
order. -/
def sortedDedup (xs : List String) : List String := sortStrings xs.dedup

/-- Python truthiness-based `opt or fallback` where `opt` is a possibly-absent
string (`none` models a missing key / `None`; `some ""` is falsy too). -/
def pyOrD (o : Option String) (d : String) : String :=
  match o with
  | some s => if s = "" then d else s
  | none => d

/-- Python `a or b` on two possibly-absent strings. -/
def pyOrO (a b : Option String) : Option String :=
  match a with
  | some s => if s = "" then b else some s
  | none => b

/-- Python `a or b` on two present strings (empty string is falsy). -/
def pyOrStr (a b : String) : String := if a = "" then b else a

/-- Model of `_safe_str` in `courtlistener.py`: `str(x).strip()` for a present
value, `""` for `None`. -/
def safe_str (x : Option String) : String :=
  match x with
  | some s => trimChars s
  | none => ""

/-! ## Calendar dates

`dateISO t` is `datetime.fromtimestamp(t, timezone.utc).date().isoformat()`:
epoch seconds → civil date (proleptic Gregorian) → `YYYY-MM-DD`. -/

/-- Days-from-epoch to civil `(year, month, day)` (standard algorithm). -/
def civilFromDays (z0 : Int) : Int × Int × Int :=
  let z := z0 + 719468
  let era := Int.fdiv z 146097
  let doe := z - era * 146097
  let yoe := Int.fdiv (doe - Int.fdiv doe 1460 + Int.fdiv doe 36524 - Int.fdiv doe 146096) 365
  let y := yoe + era * 400
  let doy := doe - (365 * yoe + Int.fdiv yoe 4 - Int.fdiv yoe 100)
  let mp := Int.fdiv (5 * doy + 2) 153
  let d := doy - Int.fdiv (153 * mp + 2) 5 + 1
  let m := mp + (if mp < 10 then 3 else -9)
  (y + (if m ≤ 2 then 1 else 0), m, d)

/-- Zero-pad a number to two digits. -/
def pad2 (n : Nat) : String := if n < 10 then "0" ++ Nat.repr n else Nat.repr n

/-- Zero-pad a year to four digits. -/
def pad4 (n : Nat) : String :=
  if n < 10 then "000" ++ Nat.repr n
  else if n < 100 then "00" ++ Nat.repr n
  else if n < 1000 then "0" ++ Nat.repr n
  else Nat.repr n

/-- ISO calendar date of an epoch-seconds UTC timestamp. -/
def dateISO (t : Int) : String :=
  let c := civilFromDays (Int.fdiv t 86400)
  pad4 c.1.toNat ++ "-" ++ pad2 c.2.1.toNat ++ "-" ++ pad2 c.2.2.toNat

/-! ## `src/extract.py` -/

/-- The `RegulationInfo` dataclass of `extract.py`. -/
structure RegulationInfo where
  update_or_filed_date : String
  country : String
  case_title : String
  article_title : String
  case_number : String
  reason : String
  article_urls : List String
  matched_keywords : String
deriving DecidableEq, Repr

/-- A news item as consumed by `build_regulations_from_news`
(`published_at` is an optional timezone-aware UTC timestamp, epoch seconds). -/
structure NewsItem where
  title : String
  url : String
  published_at : Option Int
deriving DecidableEq, Repr

/-- The `enrich` payload of a known-case entry; `none` models an absent
dictionary key. -/
structure Enrich where
  country : Option String
  case_title : Option String
  case_number : Option String
  reason : Option String
deriving DecidableEq, Repr

/-- The all-absent enrich payload (Python `{}`). -/
def emptyEnrich : Enrich := ⟨none, none, none, none⟩

/-- One entry of the known-case table: `match.any` trigger keywords and the
enrich payload. -/
structure KnownCase where
  matchAny : List String
  enrich : Enrich
deriving DecidableEq, Repr

/-- `enrich_from_known` of `extract.py`: first entry whose (non-empty) `any`
list has a case-insensitive substring hit in `title + "\n" + text` wins. -/
def enrich_from_known (text title : String) (known : List KnownCase) : Enrich :=
  let hay := lowerStr (title ++ "\n" ++ text)
  match known.find? (fun e =>
      !e.matchAny.isEmpty && e.matchAny.any (fun t => strContains hay (lowerStr t))) with
  | some e => e.enrich
  | none => emptyEnrich

/-- The ordered country-keyword table of `extract_country`, verbatim from
`extract.py` (Python dicts preserve insertion order). -/
def countryTable : List (String × List String) := [
  ("Ascension and Tristan da Cunha", ["Ascension and Tristan da Cunha", "saint helena"]),
  ("EU", ["eu ", "european union", "유럽연합", "브뤼셀", "유럽"]),
  ("가나", ["ghana", "가나"]),
  ("가봉", ["gabon", "가봉"]),
  ("가이아나", ["guyana", "가이아나"]),
  ("감비아", ["gambia", "감비아"]),
  ("건지", ["guernsey", "건지"]),
  ("과들루프", ["guadeloupe", "과들루프"]),
  ("과테말라", ["guatemala", "과테말라"]),
  ("괌", ["guam", "괌"]),
  ("그레나다", ["grenada", "그레나다"]),
  ("그리스", ["greece", "그리스"]),
  ("그린란드", ["greenland", "그린란드"]),
  ("글로벌", ["global", "international", "글로벌", "국제"]),
  ("기니", ["guinea", "기니"]),
  ("기니비사우", ["guinea-bissau", "기니비사우"]),
  ("나미비아", ["namibia", "나미비아"]),
  ("나우루", ["nauru", "나우루"]),
  ("나이지리아", ["nigeria", "나이지리아"]),
  ("남수단", ["south sudan", "남수단"]),
  ("남아프리카 공화국", ["south africa", "남아프리카 공화국"]),
  ("네덜란드", ["netherlands", "네덜란드"]),
  ("네팔", ["nepal", "네팔"]),
  ("노르웨이", ["norway", "노르웨이"]),
  ("노퍽 섬", ["norfolk island", "노퍽 섬"]),
  ("누벨칼레도니", ["new caledonia", "누벨칼레도니"]),
  ("뉴질랜드", ["new zealand", "뉴질랜드"]),
  ("니우에", ["niue", "니우에"]),
  ("니제르", ["niger", "니제르"]),
  ("니카라과", ["nicaragua", "니카라과"]),
  ("대만", ["taiwan", "대만"]),
  ("대한민국", ["korea", "republic of korea", "south korea", "대한민국", "한국"]),
  ("덴마크", ["denmark", "덴마크"]),
  ("도미니카", ["dominica", "도미니카"]),
  ("도미니카 공화국", ["dominican republic", "도미니카 공화국"]),
  ("독일", ["germany", "독일", "베를린"]),
  ("동티모르", ["timor-leste", "동티모르"]),
  ("라오스", ["laos", "라오스"]),
  ("라이베리아", ["liberia", "라이베리아"]),
  ("라트비아", ["latvia", "라트비아"]),
  ("러시아", ["russia", "러시아"]),
  ("레바논", ["lebanon", "레바논"]),
  ("레소토", ["lesotho", "레소토"]),
  ("레위니옹", ["réunion", "레위니옹"]),
  ("루마니아", ["romania", "루마니아"]),
  ("룩셈부르크", ["luxembourg", "룩셈부르크"]),
  ("르완다", ["rwanda", "르완다"]),
  ("리비아", ["libya", "리비아"]),
  ("리투아니아", ["lithuania", "리투아니아"]),
  ("리히텐슈타인", ["liechtenstein", "리히텐슈타인"]),
  ("마다가스카르", ["madagascar", "마다가스카르"]),
  ("마르티니크", ["martinique", "마르티니크"]),
  ("마셜 제도", ["marshall islands", "마셜 제도"]),
  ("마요트", ["mayotte", "마요트"]),
  ("마카오", ["macau", "마카오"]),
  ("말라위", ["malawi", "말라위"]),
  ("말레이시아", ["malaysia", "말레이시아"]),
  ("말리", ["mali", "말리"]),
  ("맨 섬", ["isle of man", "맨 섬"]),
  ("멕시코", ["mexico", "멕시코"]),
  ("모나코", ["monaco", "모나코"]),
  ("모로코", ["morocco", "모로코"]),
  ("모리셔스", ["mauritius", "모리셔스"]),
  ("모리타니", ["mauritania", "모리타니"]),
  ("모잠비크", ["mozambique", "모잠비크"]),
  ("몬테네그로", ["montenegro", "몬테네그로"]),
  ("몬트세랫", ["montserrat", "몬트세랫"]),
  ("몰도바", ["moldova", "몰도바"]),
  ("몰디브", ["maldives", "몰디브"]),
  ("몰타", ["malta", "몰타"]),
  ("몽골", ["mongolia", "몽골"]),
  ("미국", ["u.s.", "u.s.a", "united states", "usa", "미 연방", "미국"]),
  ("미얀마", ["myanmar (burma)", "미얀마"]),
  ("미크로네시아", ["micronesia", "미크로네시아"]),
  ("바누아투", ["vanuatu", "바누아투"]),
  ("바레인", ["bahrain", "바레인"]),
  ("바베이도스", ["barbados", "바베이도스"]),
  ("바티칸 시국", ["vatican city (holy see)", "바티칸 시국"]),
  ("바하마", ["bahamas", "바하마"]),
  ("방글라데시", ["bangladesh", "방글라데시"]),
  ("버뮤다", ["bermuda", "버뮤다"]),
  ("베냉", ["benin", "베냉"]),
  ("베네수엘라", ["venezuela", "베네수엘라"]),
  ("베트남", ["vietnam", "베트남"]),
  ("벨기에", ["belgium", "벨기에"]),
  ("벨라루스", ["belarus", "벨라루스"]),
  ("벨리즈", ["belize", "벨리즈"]),
  ("보네르", ["bonaire", "보네르"]),
  ("보스니아 헤르체고비나", ["bosnia and herzegovina", "보스니아 헤르체고비나"]),
  ("보츠와나", ["botswana", "보츠와나"]),
  ("볼리비아", ["bolivia", "볼리비아"]),
  ("부룬디", ["burundi", "부룬디"]),
  ("부르키나파소", ["burkina faso", "부르키나파소"]),
  ("부베 섬", ["bouvet island", "부베 섬"]),
  ("부탄", ["bhutan", "부탄"]),
  ("북마케도니아", ["north macedonia", "북마케도니아"]),
  ("북한", ["north korea", "북한"]),
  ("불가리아", ["bulgaria", "불가리아"]),
  ("브라질", ["brazil", "브라질"]),
  ("브루나이", ["brunei darussalam", "브루나이"]),
  ("사모아", ["samoa", "사모아"]),
  ("사우디아라비아", ["saudi arabia", "사우디아라비아"]),
  ("산마리노", ["san marino", "산마리노"]),
  ("상투메 프린시페", ["sao tome and principe", "상투메 프린시페"]),
  ("생마르탱", ["saint martin (french part)", "생마르탱"]),
  ("생바르텔레미", ["saint barthélemy", "생바르텔레미"]),
  ("생피에르 미클롱", ["saint pierre and miquelon", "생피에르 미클롱"]),
  ("서사하라", ["western sahara", "서사하라"]),
  ("세네갈", ["senegal", "세네갈"]),
  ("세르비아", ["serbia", "세르비아"]),
  ("세이셸", ["seychelles", "세이셸"]),
  ("세인트루시아", ["saint lucia", "세인트루시아"]),
  ("세인트빈센트 그레나딘", ["saint vincent and the grenadines", "세인트빈센트 그레나딘"]),
  ("세인트키츠 네비스", ["saint kitts and nevis", "세인트키츠 네비스"]),
  ("소말리아", ["somalia", "소말리아"]),
  ("솔로몬 제도", ["solomon islands", "솔로몬 제도"]),
  ("수단", ["sudan", "수단"]),
  ("수리남", ["suriname", "수리남"]),
  ("스리랑카", ["sri lanka", "스리랑카"]),
  ("스웨덴", ["sweden", "스웨덴"]),
  ("스위스", ["switzerland", "스위스"]),
  ("스페인", ["spain", "스페인"]),
  ("슬로바키아", ["slovakia", "슬로바키아"]),
  ("슬로베니아", ["slovenia", "슬로베니아"]),
  ("시리아", ["syria", "시리아"]),
  ("시에라리온", ["sierra leone", "시에라리온"]),
  ("신트마르턴", ["sint maarten (dutch part)", "신트마르턴"]),
  ("싱가포르", ["singapore", "싱가포르"]),
  ("아랍에미리트", ["united arab emirates", "아랍에미리트"]),
  ("아루바", ["aruba", "아루바"]),
  ("아르메니아", ["armenia", "아르메니아"]),
  ("아르헨티나", ["argentina", "아르헨티나"]),
  ("아메리칸사모아", ["american samoa", "아메리칸사모아"]),
  ("아이슬란드", ["iceland", "아이슬란드"]),
  ("아이티", ["haiti", "아이티"]),
  ("아일랜드", ["ireland", "아일랜드"]),
  ("아제르바이잔", ["azerbaijan", "아제르바이잔"]),
  ("아프가니스탄", ["afghanistan", "아프가니스탄"]),
  ("안도라", ["andorra", "안도라"]),
  ("알바니아", ["albania", "알바니아"]),
  ("알제리", ["algeria", "알제리"]),
  ("앙골라", ["angola", "앙골라"]),
  ("앤티가 바부다", ["antigua and barbuda", "앤티가 바부다"]),
  ("앵귈라", ["anguilla", "앵귈라"]),
  ("어센션 섬", ["ascension island", "어센션 섬"]),
  ("에리트레아", ["eritrea", "에리트레아"]),
  ("에스와티니", ["eswatini", "에스와티니"]),
  ("에스토니아", ["estonia", "에스토니아"]),
  ("에콰도르", ["ecuador", "에콰도르"]),
  ("에티오피아", ["ethiopia", "에티오피아"]),
  ("엘살바도르", ["el salvador", "엘살바도르"]),
  ("영국", ["uk ", "united kingdom", "런던", "영국"]),
  ("영국령 버진아일랜드", ["british virgin islands", "영국령 버진아일랜드"]),
  ("영국령 인도양 식민지", ["british indian ocean territory", "영국령 인도양 식민지"]),
  ("예멘", ["yemen", "예멘"]),
  ("오만", ["oman", "오만"]),
  ("오스트레일리아", ["australia", "오스트레일리아"]),
  ("오스트리아", ["austria", "오스트리아"]),
  ("온두라스", ["honduras", "온두라스"]),
  ("올란드 제도", ["åland islands", "올란드 제도"]),
  ("왈리스 푸투나", ["wallis and futuna", "왈리스 푸투나"]),
  ("요르단", ["jordan", "요르단"]),
  ("우간다", ["uganda", "우간다"]),
  ("우루과이", ["uruguay", "우루과이"]),
  ("우즈베키스탄", ["uzbekistan", "우즈베키스탄"]),
  ("우크라이나", ["ukraine", "우크라이나"]),
  ("이라크", ["iraq", "이라크"]),
  ("이란", ["iran", "이란"]),
  ("이스라엘", ["israel", "이스라엘"]),
  ("이집트", ["egypt", "이집트"]),
  ("이탈리아", ["italy", "이탈리아"]),
  ("인도", ["india", "인도"]),
  ("인도네시아", ["indonesia", "인도네시아"]),
  ("일본", ["japan", "도쿄", "일본"]),
  ("자메이카", ["jamaica", "자메이카"]),
  ("잠비아", ["zambia", "잠비아"]),
  ("저지", ["jersey", "저지"]),
  ("적도 기니", ["equatorial guinea", "적도 기니"]),
  ("조지아", ["georgia", "조지아"]),
  ("중국", ["china", "베이징", "중국"]),
  ("중앙아프리카 공화국", ["central african republic", "중앙아프리카 공화국"]),
  ("지부티", ["djibouti", "지부티"]),
  ("지브롤터", ["gibraltar", "지브롤터"]),
  ("짐바브웨", ["zimbabwe", "짐바브웨"]),
  ("차드", ["chad", "차드"]),
  ("체코", ["czech republic", "체코"]),
  ("칠레", ["chile", "칠레"]),
  ("카메룬", ["cameroon", "카메룬"]),
  ("카보베르데", ["cape verde", "카보베르데"]),
  ("카자흐스탄", ["kazakhstan", "카자흐스탄"]),
  ("카타르", ["qatar", "카타르"]),
  ("캄보디아", ["cambodia", "캄보디아"]),
  ("캐나다", ["canada", "캐나다"]),
  ("케냐", ["kenya", "케냐"]),
  ("케이맨제도", ["cayman islands", "케이맨제도"]),
  ("코모로", ["comoros", "코모로"]),
  ("코스타리카", ["costa rica", "코스타리카"]),
  ("코코스 제도", ["cocos (keeling) islands", "코코스 제도"]),
  ("코트디부아르", ["ivory coast (côte d\x27ivoire)", "코트디부아르"]),
  ("콜롬비아", ["colombia", "콜롬비아"]),
  ("콩고 공화국", ["congo (republic)", "콩고 공화국"]),
  ("콩고 민주 공화국", ["congo (democratic republic of)", "콩고 민주 공화국"]),
  ("쿠바", ["cuba", "쿠바"]),
  ("쿠웨이트", ["kuwait", "쿠웨이트"]),
  ("쿡 제도", ["cook islands", "쿡 제도"]),
  ("퀴라소", ["curaçao", "퀴라소"]),
  ("크로아티아", ["croatia", "크로아티아"]),
  ("크리스마스 섬", ["christmas island", "크리스마스 섬"]),
  ("키르기스스탄", ["kyrgyzstan", "키르기스스탄"]),
  ("키리바시", ["kiribati", "키리바시"]),
  ("키프로스", ["cyprus", "키프로스"]),
  ("타지키스탄", ["tajikistan", "타지키스탄"]),
  ("탄자니아", ["tanzania", "탄자니아"]),
  ("태국", ["thailand", "태국"]),
  ("터크스 케이커스 제도", ["turks and caicos islands", "터크스 케이커스 제도"]),
  ("토고", ["togo", "토고"]),
  ("토켈라우", ["tokelau", "토켈라우"]),
  ("통가", ["tonga", "통가"]),
  ("투르크메니스탄", ["turkmenistan", "투르크메니스탄"]),
  ("투발루", ["tuvalu", "투발루"]),
  ("튀니지", ["tunisia", "튀니지"]),
  ("튀르키예", ["turkey", "튀르키예"]),
  ("트리니다드 토바고", ["trinidad and tobago", "트리니다드 토바고"]),
  ("파나마", ["panama", "파나마"]),
  ("파라과이", ["paraguay", "파라과이"]),
  ("파키스탄", ["pakistan", "파키스탄"]),
  ("파푸아뉴기니", ["papua new guinea", "파푸아뉴기니"]),
  ("팔라우", ["palau", "팔라우"]),
  ("팔레스타인", ["palestine", "팔레스타인"]),
  ("페로 제도", ["faroe islands", "페로 제도"]),
  ("페루", ["peru", "페루"]),
  ("포르투갈", ["portugal", "포르투갈"]),
  ("포클랜드 제도", ["falkland islands", "포클랜드 제도"]),
  ("폴란드", ["poland", "폴란드"]),
  ("푸에르토리코", ["puerto rico", "푸에르토리코"]),
  ("프랑스", ["france", "파리", "프랑스"]),
  ("프랑스령 기아나", ["french guiana", "프랑스령 기아나"]),
  ("프랑스령 폴리네시아", ["french polynesia", "프랑스령 폴리네시아"]),
  ("피지", ["fiji", "피지"]),
  ("핀란드", ["finland", "핀란드"]),
  ("필리핀", ["philippines", "필리핀"]),
  ("핏케언 제도", ["pitcairn islands", "핏케언 제도"]),
  ("헝가리", ["hungary", "헝가리"]),
  ("홍콩", ["hong kong", "홍콩"])
]

/-- Does a table entry match the lowered haystack? (`any(k in text for k in
keywords)`). -/
def entryMatches (ts : String) (e : String × List String) : Bool :=
  e.2.any (fun k => strContains ts k)

/-- The `for country, keywords in mapping.items(): ... return country` loop of
`extract_country`, with default `"기타"`. -/
def lookupCountry (ts : String) : List (String × List String) → String
  | [] => "기타"
  | e :: rest => if entryMatches ts e then e.1 else lookupCountry ts rest

/-- `extract_country` of `extract.py`. -/
def extract_country (text title : String) : String :=
  lookupCountry (lowerStr (title ++ " " ++ text)) countryTable

/-- `extract_regulation_subject` of `extract.py`. -/
def extract_regulation_subject (text title : String) : String :=
  let ts := lowerStr (title ++ " " ++ text)
  if strContains ts "eu ai act" || strContains ts "유럽연합" || strContains ts "european union" then
    "EU AI Act"
  else if strContains ts "기본법" || strContains ts "대한민국" || strContains ts "korea" then
    "AI 기본법 (KR)"
  else if strContains ts "copyright" || strContains ts "저작권" then
    "AI 저작권 가이드라인"
  else if strContains ts "california" || strContains ts "sb 1047" then
    "California AI Safety Bill"
  else
    "국내외 규제 동향"

/-- `reason_heuristic` of `extract.py`. -/
def reason_heuristic (hay : String) : String :=
  let h := lowerStr hay
  if strContains h "copyright" || strContains h "저작권" then
    "AI 학습 데이터에 대한 저작권 가이드라인 또는 지식재산권 보호 조치 관련 정보."
  else if strContains h "governance" || strContains h "policy" || strContains h "거버넌스" || strContains h "정책" then
    "AI 윤리 준수 및 거버넌스 체계 구축을 위한 정책 가이드라인 또는 규제 프레임워크."
  else if strContains h "ai act" || strContains h "eu" then
    "EU AI Act 또는 이에 준하는 고강도 AI 규제 법안의 진척 및 대응 필요 사항."
  else
    "국내외 AI 규제 법제화, 가이드라인 배포 및 정책 동향 관련 최신 정보."

/-- The fixed relevance keyword list of `build_regulations_from_news`. -/
def relevanceKeywords : List String := [
  "regulation", "governance", "act", "policy", "bill", "copyright", "dispute", "legal",
  "intellectual property", "framework", "safety summit", "guideline", "ethics",
  "규제", "거버넌스", "기본법", "정책", "가이드라인", "저작권", "책임법", "윤리", "지식재산권"]

/-- `found = [k for k in keywords if k.lower() in lower]` where
`lower = (title + " " + text).lower()`. -/
def foundKeywords (title text : String) : List String :=
  relevanceKeywords.filter (fun k => strContains (lowerStr (title ++ " " ++ text)) (lowerStr k))

/-- The date-based rejection `item.published_at and item.published_at < cutoff`
(a present datetime is always truthy in Python). -/
def dateExcluded (pub : Option Int) (cutoff : Int) : Bool :=
  match pub with
  | some t => decide (t < cutoff)
  | none => false

/-- One loop iteration of `build_regulations_from_news`: `none` when the item
is rejected (date window, empty fetched text, or no relevance keyword), else
the emitted `RegulationInfo`.  `fetchText` is the `fetch_page_text`
collaborator returning `(text, final_url)`. -/
def processItem (fetchText : String → String × String) (now : Int)
    (known : List KnownCase) (cutoff : Int) (item : NewsItem) : Option RegulationInfo :=
  if dateExcluded item.published_at cutoff then none
  else if (fetchText item.url).1 = "" then none
  else if foundKeywords item.title (fetchText item.url).1 = [] then none
  else
    let text := (fetchText item.url).1
    let hay := item.title ++ " " ++ text
    let enrich := enrich_from_known text item.title known
    some {
      update_or_filed_date := dateISO (item.published_at.getD now)
      country := pyOrD enrich.country (extract_country text item.title)
      case_title := pyOrD enrich.case_title (extract_regulation_subject text item.title)
      article_title := item.title
      case_number := pyOrD enrich.case_number "N/A"
      reason := enrich.reason.getD (reason_heuristic hay)
      article_urls := sortedDedup [(fetchText item.url).2, item.url]
      matched_keywords := joinSep ", " (foundKeywords item.title text) }

/-- The 4-tuple merge key `(case_number, country, case_title, article_title)`. -/
def mergeKey (r : RegulationInfo) : String × String × String × String :=
  (r.case_number, r.country, r.case_title, r.article_title)

/-- The in-place mutation of the first-seen record when a duplicate-key record
`b` arrives: URL union, max date, keyword union. -/
def mergeTwo (a b : RegulationInfo) : RegulationInfo :=
  { a with
    article_urls := sortedDedup (a.article_urls ++ b.article_urls)
    update_or_filed_date :=
      if strLtB a.update_or_filed_date b.update_or_filed_date then
        b.update_or_filed_date
      else a.update_or_filed_date
    matched_keywords :=
      joinSep ", " (sortedDedup
        (splitKeywords a.matched_keywords ++ splitKeywords b.matched_keywords)) }

/-- One step of the merge loop over the insertion-ordered dict `merged`. -/
def insertMerge (acc : List ((String × String × String × String) × RegulationInfo))
    (r : RegulationInfo) :
    List ((String × String × String × String) × RegulationInfo) :=
  if acc.any (fun p => p.1 == mergeKey r) then
    acc.map (fun p => if p.1 == mergeKey r then (p.1, mergeTwo p.2 r) else p)
  else acc ++ [(mergeKey r, r)]

/-- The merge pass of `build_regulations_from_news`
(`merged: Dict[key, RegulationInfo]` + `list(merged.values())`). -/
def mergePass (rs : List RegulationInfo) : List RegulationInfo :=
  (rs.foldl insertMerge []).map Prod.snd

/-- `build_regulations_from_news` of `extract.py`, with the page-fetch
collaborator and the current UTC time passed explicitly. -/
def build_regulations_from_news (fetchText : String → String × String) (now : Int)
    (news_items : List NewsItem) (known_cases : List KnownCase)
    (lookback_days : Int) : List RegulationInfo :=
  mergePass (news_items.filterMap
    (processItem fetchText now known_cases (now - lookback_days * 86400)))

/-! ## `src/render.py` -/

/-- The `CLCaseSummary` dataclass of `courtlistener.py`. -/
structure CLCaseSummary where
  docket_id : Int
  case_name : String
  docket_number : String
  court : String
  court_short_name : String
  court_api_url : String
  date_filed : String
  status : String
  judge : String
  magistrate : String
  nature_of_suit : String
  cause : String
  parties : String
  complaint_doc_no : String
  complaint_link : String
  recent_updates : String
  extracted_causes : String
  extracted_ai_snippet : String
  docket_candidates : String
deriving DecidableEq, Repr

/-- Category hit: `any(k in text for k in keywords)`. -/
def catHit (keywords : List String) (text : String) : Bool :=
  keywords.any (fun k => strContains text k)

/-- Unauthorized-collection keywords (+30), identical at both call sites. -/
def unauthorizedKeywords : List String := [
  "scrape", "crawl", "ingest", "harvest", "mining", "extraction", "bulk",
  "collection", "robots.txt", "common crawl", "laion", "the pile",
  "bookcorpus", "unauthorized"]

/-- Model-training keywords (+30), identical at both call sites. -/
def trainingKeywords : List String := [
  "train", "training", "model", "llm", "generative ai", "genai", "gpt",
  "transformer", "weight", "fine-tune", "diffusion", "inference"]

/-- Commercial-use keywords (+15), identical at both call sites. -/
def commercialKeywords : List String := [
  "commercial", "profit", "monetiz", "revenue", "subscription", "enterprise",
  "paid", "for-profit"]

/-- Copyright keywords of `calculate_case_risk_score` (+15). -/
def copyrightCaseKeywords : List String := [
  "copyright", "infringement", "dmca", "fair use", "derivative", "exclusive"]

/-- Copyright keywords of `calculate_news_risk_score` (+15): the case list
plus the literal `"820"` (used in news text as a stand-in for the
nature-of-suit code). -/
def copyrightNewsKeywords : List String := copyrightCaseKeywords ++ ["820"]

/-- Class-action keywords (+10), identical at both call sites. -/
def classActionKeywords : List String := [
  "class action", "putative class", "representative"]

/-- `calculate_news_risk_score` of `render.py`. -/
def calculate_news_risk_score (title reason : String) : Nat :=
  let text := lowerStr (title ++ " " ++ reason)
  let score : Nat := 0
  let score := if catHit unauthorizedKeywords text then score + 30 else score
  let score := if catHit trainingKeywords text then score + 30 else score
  let score := if catHit commercialKeywords text then score + 15 else score
  let score := if catHit copyrightNewsKeywords text then score + 15 else score
  let score := if catHit classActionKeywords text then score + 10 else score
  min score 100

/-- `calculate_case_risk_score` of `render.py` (the copyright category also
fires on a truthy `nature_of_suit` containing `"820"`). -/
def calculate_case_risk_score (c : CLCaseSummary) : Nat :=
  let text := lowerStr (c.extracted_ai_snippet ++ " " ++ c.extracted_causes)
  let score : Nat := 0
  let score := if catHit unauthorizedKeywords text then score + 30 else score
  let score := if catHit trainingKeywords text then score + 30 else score
  let score := if catHit commercialKeywords text then score + 15 else score
  let score :=
    if (c.nature_of_suit ≠ "" && strContains c.nature_of_suit "820")
        || catHit copyrightCaseKeywords text then score + 15 else score
  let score := if catHit classActionKeywords text then score + 10 else score
  min score 100

/-- The scoring call of `render_markdown` for one news row:
`calculate_news_risk_score(s.article_title or s.case_title, s.reason)`. -/
def newsRowScore (s : RegulationInfo) : Nat :=
  calculate_news_risk_score (pyOrStr s.article_title s.case_title) s.reason

/-! ## `src/courtlistener.py` -/

/-- The docket JSON payload: every key read by
`build_case_summary_from_docket_id`, `none` modelling an absent key. -/
structure DocketPayload where
  case_name : Option String
  caseName : Option String
  docket_number : Option String
  docketNumber : Option String
  court : Option String
  court_id : Option String
  courtId : Option String
  date_filed : Option String
  dateFiled : Option String
  date_terminated : Option String
  dateTerminated : Option String
  assigned_to_str : Option String
  assignedToStr : Option String
  assigned_to : Option String
  assignedTo : Option String
  referred_to_str : Option String
  referredToStr : Option String
  referred_to : Option String
  referredTo : Option String
  nature_of_suit : Option String
  natureOfSuit : Option String
  cause : Option String
deriving DecidableEq, Repr

/-- The empty payload `{}` (used when the docket fetch fails). -/
def emptyDocket : DocketPayload :=
  ⟨none, none, none, none, none, none, none, none, none, none, none,
   none, none, none, none, none, none, none, none, none, none, none⟩

/-- One party entry of the parties API payload. -/
structure Party where
  name : Option String
  party_name : Option String
  partyName : Option String
  party_type : Option String
  partyType : Option String
  role : Option String
deriving DecidableEq, Repr

/-- Outcome of the court-metadata HTTP call: an exception, or a status code
with the optional `short_name` field of the JSON body. -/
inductive CourtFetchResult where
  | err : CourtFetchResult
  | ok : Nat → Option String → CourtFetchResult
deriving DecidableEq, Repr

/-- The court-metadata endpoint URL (`COURT_URL.format(id=court_id)`). -/
def courtURL (court_id : String) : String :=
  "https://www.courtlistener.com/api/rest/v4/courts/" ++ court_id ++ "/"

/-- `fetch_court_metadata` of `courtlistener.py`, with the HTTP collaborator
passed explicitly. -/
def fetch_court_metadata (resp : String → CourtFetchResult) (court_id : String) :
    String × String :=
  if court_id = "" ∨ court_id = "미확인" then ("미확인", "")
  else
    let url := courtURL court_id
    match resp url with
    | .err => (court_id, url)
    | .ok status short_name =>
        if status ≠ 200 then (court_id, url)
        else (pyOrD short_name court_id, url)

/-- `_status_from_docket` of `courtlistener.py`. -/
def status_from_docket (docket : DocketPayload) : String :=
  let term := safe_str (pyOrO docket.date_terminated docket.dateTerminated)
  if term ≠ "" then "종결(" ++ term.take 10 ++ ")" else "진행중/미확인"

/-- `_format_parties` of `courtlistener.py`. -/
def format_parties (parties : List Party) (max_n : Nat) : String :=
  let names := (parties.take max_n).filterMap (fun p =>
    let nm := safe_str (pyOrO (pyOrO p.name p.party_name) p.partyName)
    let typ := safe_str (pyOrO (pyOrO p.party_type p.partyType) p.role)
    if nm ≠ "" then some (if typ ≠ "" then nm ++ "(" ++ typ ++ ")" else nm)
    else none)
  if names = [] then "미확인"
  else
    let names := if parties.length > max_n then names ++ ["…"] else names
    joinSep "; " names

/-- `build_case_summary_from_docket_id` of `courtlistener.py`.  `fetchDocket`
models `fetch_docket` (`None` on any failure), `courtResp` the court-metadata
HTTP call, `fetchParties` the parties API call (`None` on failure). -/
def build_case_summary_from_docket_id (fetchDocket : Int → Option DocketPayload)
    (courtResp : String → CourtFetchResult)
    (fetchParties : Int → Option (List Party)) (docket_id : Int) :
    Option CLCaseSummary :=
  if docket_id = 0 then none
  else
    let docket := (fetchDocket docket_id).getD emptyDocket
    let case_name := pyOrStr (safe_str (pyOrO docket.case_name docket.caseName)) "미확인"
    let docket_number := pyOrStr (safe_str (pyOrO docket.docket_number docket.docketNumber)) "미확인"
    let court_id := pyOrStr (safe_str (pyOrO (pyOrO docket.court docket.court_id) docket.courtId)) "미확인"
    let cm := fetch_court_metadata courtResp court_id
    let date_filed := pyOrStr ((safe_str (pyOrO docket.date_filed docket.dateFiled)).take 10) "미확인"
    let judge := pyOrStr (safe_str (pyOrO (pyOrO (pyOrO docket.assigned_to_str docket.assignedToStr) docket.assigned_to) docket.assignedTo)) "미확인"
    let magistrate := pyOrStr (safe_str (pyOrO (pyOrO (pyOrO docket.referred_to_str docket.referredToStr) docket.referred_to) docket.referredTo)) "미확인"
    let nature_of_suit := pyOrStr (safe_str (pyOrO docket.nature_of_suit docket.natureOfSuit)) "미확인"
    let cause := pyOrStr (safe_str docket.cause) "미확인"
    let parties := format_parties ((fetchParties docket_id).getD []) 12
    some {
      docket_id := docket_id
      case_name := case_name
      docket_number := docket_number
      court := court_id
      court_short_name := cm.1
      court_api_url := cm.2
      date_filed := date_filed
      status := status_from_docket docket
      judge := judge
      magistrate := magistrate
      nature_of_suit := nature_of_suit
      cause := cause
      parties := parties
      complaint_doc_no := "미확인"
      complaint_link := ""
      recent_updates := "미확인"
      extracted_causes := "미확인"
      extracted_ai_snippet := ""
      docket_candidates := "" }

/-! ## Helper lemmas -/

lemma insertSorted_perm (s : String) (l : List String) :
    List.Perm (insertSorted s l) (s :: l) := by
  induction l with
  | nil => simp [insertSorted]
  | cons x xs ih =>
      cases h : strLtB s x
      · simp only [insertSorted, h, Bool.false_eq_true, if_false]
        exact (ih.cons x).trans (List.Perm.swap s x xs)
      · simp [insertSorted, h]

lemma sortStrings_perm (l : List String) : List.Perm (sortStrings l) l := by
  induction l with
  | nil => simp [sortStrings]
  | cons x xs ih =>
      have hstep : sortStrings (x :: xs) = insertSorted x (sortStrings xs) := rfl
      rw [hstep]
      exact (insertSorted_perm x (sortStrings xs)).trans (ih.cons x)

lemma mem_sortedDedup (a : String) (l : List String) :
    a ∈ sortedDedup l ↔ a ∈ l := by
  unfold sortedDedup
  rw [(sortStrings_perm l.dedup).mem_iff, List.mem_dedup]

lemma sortedDedup_nodup (l : List String) : (sortedDedup l).Nodup := by
  unfold sortedDedup
  exact ((sortStrings_perm l.dedup).nodup_iff).mpr (List.nodup_dedup l)

lemma sortedDedup_ne_nil (l : List String) (h : l ≠ []) : sortedDedup l ≠ [] := by
  obtain ⟨a, ha⟩ := List.exists_mem_of_ne_nil l h
  intro hnil
  have hm := (mem_sortedDedup a l).mpr ha
  rw [hnil] at hm
  exact List.not_mem_nil a hm

lemma charListLt_irrefl (l : List Char) : charListLt l l = false := by
  induction l with
  | nil => rfl
  | cons a as ih => simp [charListLt, ih, Nat.lt_irrefl]

lemma charListLt_asymm : ∀ l1 l2, charListLt l1 l2 = true → charListLt l2 l1 = false := by
  intro l1
  induction l1 with
  | nil =>
      intro l2 h
      cases l2 with
      | nil => simp [charListLt] at h
      | cons b bs => rfl
  | cons a as ih =>
      intro l2 h
      cases l2 with
      | nil => simp [charListLt] at h
      | cons b bs =>
          cases hba : charListLt (b :: bs) (a :: as)
          · rfl
          · exfalso
            simp only [charListLt, Bool.or_eq_true, Bool.and_eq_true,
              decide_eq_true_eq] at h hba
            rcases h with h | ⟨he, hlt⟩
            · rcases hba with h' | ⟨he', _⟩ <;> omega
            · rcases hba with h' | ⟨he', hlt'⟩
              · omega
              · rw [ih bs hlt] at hlt'
                exact Bool.false_ne_true hlt'

lemma strLtB_irrefl (s : String) : strLtB s s = false := charListLt_irrefl _

lemma strLtB_asymm (a b : String) (h : strLtB a b = true) : strLtB b a = false :=
  charListLt_asymm _ _ h

/-- C1: For every pair of records with equal 4-tuple merge keys, the merge pass
yields exactly one record: the first-seen one, whose `article_urls` is the
deduplicated union of both URL sets, whose `update_or_filed_date` is the
lexicographically greatest of the two dates, and whose `matched_keywords` is
the sorted, deduplicated union of both comma-split keyword lists rejoined
with `", "`. -/
theorem C1_merge_same_key (a b : RegulationInfo) (h : mergeKey a = mergeKey b) :
    mergePass [a, b] = [mergeTwo a b]
    ∧ (∀ u, u ∈ (mergeTwo a b).article_urls ↔ u ∈ a.article_urls ∨ u ∈ b.article_urls)
    ∧ (mergeTwo a b).article_urls.Nodup
    ∧ ((mergeTwo a b).update_or_filed_date = a.update_or_filed_date
        ∨ (mergeTwo a b).update_or_filed_date = b.update_or_filed_date)
    ∧ strLtB (mergeTwo a b).update_or_filed_date a.update_or_filed_date = false
    ∧ strLtB (mergeTwo a b).update_or_filed_date b.update_or_filed_date = false
    ∧ (mergeTwo a b).matched_keywords
        = joinSep ", " (sortedDedup
            (splitKeywords a.matched_keywords ++ splitKeywords b.matched_keywords))
    ∧ (mergeTwo a b).country = a.country
    ∧ (mergeTwo a b).case_number = a.case_number
    ∧ (mergeTwo a b).case_title = a.case_title
    ∧ (mergeTwo a b).article_title = a.article_title
    ∧ (mergeTwo a b).reason = a.reason := by
  refine ⟨?_, ?_, ?_, ?_, ?_, ?_, rfl, rfl, rfl, rfl, rfl, rfl⟩
  · simp [mergePass, insertMerge, h]
  · intro u
    show u ∈ sortedDedup (a.article_urls ++ b.article_urls) ↔ _
    rw [mem_sortedDedup, List.mem_append]
  · exact sortedDedup_nodup _
  · cases hab : strLtB a.update_or_filed_date b.update_or_filed_date
    · exact Or.inl (by simp [mergeTwo, hab])
    · exact Or.inr (by simp [mergeTwo, hab])
  · cases hab : strLtB a.update_or_filed_date b.update_or_filed_date
    · rw [show (mergeTwo a b).update_or_filed_date = a.update_or_filed_date from by
        simp [mergeTwo, hab]]
      exact strLtB_irrefl _
    · rw [show (mergeTwo a b).update_or_filed_date = b.update_or_filed_date from by
        simp [mergeTwo, hab]]
      exact strLtB_asymm _ _ hab
  · cases hab : strLtB a.update_or_filed_date b.update_or_filed_date
    · rw [show (mergeTwo a b).update_or_filed_date = a.update_or_filed_date from by
        simp [mergeTwo, hab]]
      exact hab
    · rw [show (mergeTwo a b).update_or_filed_date = b.update_or_filed_date from by
        simp [mergeTwo, hab]]
      exact strLtB_irrefl _

/-- A concrete duplicate-key pair for C1. -/
def c1RecA : RegulationInfo :=
  ⟨"2024-06-01", "미국", "AI 저작권 가이드라인", "Title T", "N/A", "reason one",
   ["http://a"], "act, copyright"⟩

/-- The later-dated duplicate of `c1RecA`. -/
def c1RecB : RegulationInfo :=
  ⟨"2024-06-03", "미국", "AI 저작권 가이드라인", "Title T", "N/A", "reason two",
   ["http://b", "http://a"], "legal"⟩

/-- Witness for C1 at a concrete duplicate-key pair. -/
theorem C1_merge_same_key_witness :
    mergePass [c1RecA, c1RecB] = [mergeTwo c1RecA c1RecB]
    ∧ (mergeTwo c1RecA c1RecB).article_urls = ["http://a", "http://b"]
    ∧ (mergeTwo c1RecA c1RecB).update_or_filed_date = "2024-06-03"
    ∧ (mergeTwo c1RecA c1RecB).matched_keywords = "act, copyright, legal" :=
  ⟨(C1_merge_same_key c1RecA c1RecB (by decide)).1, by decide, by decide, by decide⟩

lemma mergeKey_mergeTwo (a b : RegulationInfo) : mergeKey (mergeTwo a b) = mergeKey a := rfl

lemma insertMerge_keys_snd (acc : List ((String × String × String × String) × RegulationInfo))
    (r : RegulationInfo) (hacc : ∀ p ∈ acc, p.1 = mergeKey p.2) :
    ∀ p ∈ insertMerge acc r, p.1 = mergeKey p.2 := by
  intro p hp
  unfold insertMerge at hp
  split at hp
  · obtain ⟨q, hq, hqp⟩ := List.mem_map.mp hp
    by_cases hk : q.1 == mergeKey r
    · rw [if_pos hk] at hqp
      subst hqp
      rw [mergeKey_mergeTwo]
      exact hacc q hq
    · rw [if_neg hk] at hqp
      subst hqp
      exact hacc q hq
  · rcases List.mem_append.mp hp with hq | hq
    · exact hacc p hq
    · rw [List.mem_singleton.mp hq]

lemma foldl_insertMerge_keys_snd :
    ∀ (rs : List RegulationInfo) (acc : List ((String × String × String × String) × RegulationInfo)),
    (∀ p ∈ acc, p.1 = mergeKey p.2) →
    ∀ p ∈ rs.foldl insertMerge acc, p.1 = mergeKey p.2 := by
  intro rs
  induction rs with
  | nil => intro acc hacc p hp; exact hacc p hp
  | cons r rest ih =>
      intro acc hacc p hp
      exact ih (insertMerge acc r) (insertMerge_keys_snd acc r hacc) p hp

lemma insertMerge_map_fst (acc : List ((String × String × String × String) × RegulationInfo))
    (r : RegulationInfo) :
    (insertMerge acc r).map Prod.fst = acc.map Prod.fst
    ∨ ((insertMerge acc r).map Prod.fst = acc.map Prod.fst ++ [mergeKey r]
        ∧ mergeKey r ∉ acc.map Prod.fst) := by
  unfold insertMerge
  split
  · left
    rw [List.map_map]
    apply List.map_congr_left
    intro p _
    by_cases hk : p.1 = mergeKey r
    · simp [hk]
    · simp [hk]
  · right
    constructor
    · simp
    · rename_i hany
      intro hmem
      apply hany
      obtain ⟨p, hp, hfst⟩ := List.mem_map.mp hmem
      refine List.any_eq_true.mpr ⟨p, hp, ?_⟩
      rw [beq_iff_eq, hfst]

lemma foldl_insertMerge_keys_nodup :
    ∀ (rs : List RegulationInfo) (acc : List ((String × String × String × String) × RegulationInfo)),
    (acc.map Prod.fst).Nodup →
    ((rs.foldl insertMerge acc).map Prod.fst).Nodup := by
  intro rs
  induction rs with
  | nil => intro acc hacc; exact hacc
  | cons r rest ih =>
      intro acc hacc
      apply ih
      rcases insertMerge_map_fst acc r with heq | ⟨heq, hnot⟩
      · rw [heq]; exact hacc
      · rw [heq]
        simp only [List.nodup_append, List.nodup_cons, List.not_mem_nil,
          not_false_iff, List.nodup_nil, and_true, true_and]
        simp only [List.disjoint_singleton]
        exact ⟨hacc, hnot⟩

lemma foldl_insertMerge_of_fresh :
    ∀ (rs : List RegulationInfo) (acc : List ((String × String × String × String) × RegulationInfo)),
    (rs.map mergeKey).Nodup →
    (∀ r ∈ rs, ∀ p ∈ acc, p.1 ≠ mergeKey r) →
    rs.foldl insertMerge acc = acc ++ rs.map (fun r => (mergeKey r, r)) := by
  intro rs
  induction rs with
  | nil => intro acc _ _; simp
  | cons r rest ih =>
      intro acc hnodup hfresh
      have hstep : insertMerge acc r = acc ++ [(mergeKey r, r)] := by
        unfold insertMerge
        rw [if_neg]
        intro hany
        obtain ⟨p, hp, hpk⟩ := List.any_eq_true.mp hany
        exact hfresh r (List.mem_cons_self r rest) p hp (beq_iff_eq.mp hpk)
      have hrestNodup : (rest.map mergeKey).Nodup := (List.nodup_cons.mp hnodup).2
      have hheadFresh : mergeKey r ∉ rest.map mergeKey := (List.nodup_cons.mp hnodup).1
      have hfresh' : ∀ r' ∈ rest, ∀ p ∈ acc ++ [(mergeKey r, r)], p.1 ≠ mergeKey r' := by
        intro r' hr' p hp
        rcases List.mem_append.mp hp with hpa | hps
        · exact hfresh r' (List.mem_cons_of_mem r hr') p hpa
        · rw [List.mem_singleton.mp hps]
          intro hcontra
          apply hheadFresh
          rw [show mergeKey r = mergeKey r' from hcontra]
          exact List.mem_map_of_mem mergeKey hr'
      calc (r :: rest).foldl insertMerge acc
          = rest.foldl insertMerge (insertMerge acc r) := rfl
        _ = (acc ++ [(mergeKey r, r)]) ++ rest.map (fun x => (mergeKey x, x)) := by
            rw [hstep]; exact ih (acc ++ [(mergeKey r, r)]) hrestNodup hfresh'
        _ = acc ++ (r :: rest).map (fun x => (mergeKey x, x)) := by simp

lemma mergePass_of_nodup_keys (rs : List RegulationInfo)
    (h : (rs.map mergeKey).Nodup) : mergePass rs = rs := by
  unfold mergePass
  rw [foldl_insertMerge_of_fresh rs [] h (by simp)]
  rw [List.nil_append, List.map_map]
  rw [show (Prod.snd ∘ fun r : RegulationInfo => (mergeKey r, r)) = id from rfl]
  exact List.map_id rs

lemma mergePass_keys_nodup (rs : List RegulationInfo) :
    ((mergePass rs).map mergeKey).Nodup := by
  unfold mergePass
  rw [List.map_map]
  have hcong : (rs.foldl insertMerge []).map (mergeKey ∘ Prod.snd)
      = (rs.foldl insertMerge []).map Prod.fst := by
    apply List.map_congr_left
    intro p hp
    exact (foldl_insertMerge_keys_snd rs [] (by simp) p hp).symm
  rw [hcong]
  exact foldl_insertMerge_keys_nodup rs [] (by simp)

/-- C6: the merge pass is idempotent: applying the group-by-merge-key fold to
a record set that is already the output of one merge pass changes nothing
(after one pass all merge keys are pairwise distinct). -/
theorem C6_mergePass_idempotent (rs : List RegulationInfo) :
    mergePass (mergePass rs) = mergePass rs :=
  mergePass_of_nodup_keys (mergePass rs) (mergePass_keys_nodup rs)

lemma processItem_some_urls (fetch : String → String × String) (now : Int)
    (known : List KnownCase) (cutoff : Int) (item : NewsItem) (r : RegulationInfo)
    (h : processItem fetch now known cutoff item = some r) : r.article_urls ≠ [] := by
  unfold processItem at h
  split at h
  · exact absurd h (by simp)
  · split at h
    · exact absurd h (by simp)
    · split at h
      · exact absurd h (by simp)
      · injection h with h'
        rw [← h']
        exact sortedDedup_ne_nil _ (by simp)

lemma insertMerge_urls_nonempty
    (acc : List ((String × String × String × String) × RegulationInfo))
    (r : RegulationInfo) (hacc : ∀ p ∈ acc, p.2.article_urls ≠ [])
    (hr : r.article_urls ≠ []) :
    ∀ p ∈ insertMerge acc r, p.2.article_urls ≠ [] := by
  intro p hp
  unfold insertMerge at hp
  split at hp
  · obtain ⟨q, hq, hqp⟩ := List.mem_map.mp hp
    by_cases hk : q.1 == mergeKey r
    · rw [if_pos hk] at hqp
      subst hqp
      show sortedDedup (q.2.article_urls ++ r.article_urls) ≠ []
      exact sortedDedup_ne_nil _ (fun hn => hacc q hq (List.append_eq_nil.mp hn).1)
    · rw [if_neg hk] at hqp
      subst hqp
      exact hacc q hq
  · rcases List.mem_append.mp hp with hq | hq
    · exact hacc p hq
    · rw [List.mem_singleton.mp hq]
      exact hr

lemma foldl_insertMerge_urls_nonempty :
    ∀ (rs : List RegulationInfo) (acc : List ((String × String × String × String) × RegulationInfo)),
    (∀ p ∈ acc, p.2.article_urls ≠ []) →
    (∀ r ∈ rs, r.article_urls ≠ []) →
    ∀ p ∈ rs.foldl insertMerge acc, p.2.article_urls ≠ [] := by
  intro rs
  induction rs with
  | nil => intro acc hacc _ p hp; exact hacc p hp
  | cons r rest ih =>
      intro acc hacc hrs p hp
      exact ih (insertMerge acc r)
        (insertMerge_urls_nonempty acc r hacc (hrs r (List.mem_cons_self r rest)))
        (fun x hx => hrs x (List.mem_cons_of_mem r hx)) p hp

/-- C9: every record emitted by `build_regulations_from_news` (after the date,
empty-text and relevance filters and the merge pass) has a non-empty
`article_urls` list. -/
theorem C9_source_urls_nonempty (fetch : String → String × String) (now : Int)
    (items : List NewsItem) (known : List KnownCase) (lookback : Int)
    (r : RegulationInfo)
    (hr : r ∈ build_regulations_from_news fetch now items known lookback) :
    r.article_urls ≠ [] := by
  unfold build_regulations_from_news mergePass at hr
  obtain ⟨p, hp, hpr⟩ := List.mem_map.mp hr
  rw [← hpr]
  apply foldl_insertMerge_urls_nonempty _ [] (by simp) ?_ p hp
  intro s hs
  obtain ⟨item, _, hsome⟩ := List.mem_filterMap.mp hs
  exact processItem_some_urls _ _ _ _ _ _ hsome

/-- Concrete page-fetch collaborator for the C9 witness. -/
def c9Fetch : String → String × String := fun _ => ("copyright regulation news body", "http://final")

/-- Concrete news item for the C9 witness. -/
def c9Item : NewsItem := ⟨"some ai news", "http://orig", none⟩

/-- Fallback record used only to totalize list indexing in the C9 witness. -/
def c9Dummy : RegulationInfo := ⟨"", "", "", "", "", "", [], ""⟩

set_option maxRecDepth 100000 in
/-- Witness for C9 at a concrete one-item run. -/
theorem C9_source_urls_nonempty_witness :
    ((build_regulations_from_news c9Fetch 0 [c9Item] [] 3).getD 0 c9Dummy).article_urls ≠ [] :=
  C9_source_urls_nonempty c9Fetch 0 [c9Item] [] 3 _ (by decide)

/-- C4: an item whose `published_at` is strictly older than
`now - lookback_days` (UTC seconds) is excluded from the output of
`build_regulations_from_news`; an item with `published_at = None` is never
excluded on date grounds, and its `update_or_filed_date` defaults to the
current date. -/
theorem C4_date_filter (fetch : String → String × String) (now : Int)
    (known : List KnownCase) (lookback : Int) (item : NewsItem) (t : Int)
    (pre post : List NewsItem)
    (hpub : item.published_at = some t) (hold : t < now - lookback * 86400) :
    build_regulations_from_news fetch now (pre ++ item :: post) known lookback
      = build_regulations_from_news fetch now (pre ++ post) known lookback
    ∧ (∀ item2 : NewsItem, item2.published_at = none →
        (fetch item2.url).1 ≠ "" →
        foundKeywords item2.title (fetch item2.url).1 ≠ [] →
        ∃ r, processItem fetch now known (now - lookback * 86400) item2 = some r
          ∧ r.update_or_filed_date = dateISO now) := by
  constructor
  · have hnone : processItem fetch now known (now - lookback * 86400) item = none := by
      unfold processItem
      rw [if_pos]
      show dateExcluded item.published_at (now - lookback * 86400) = true
      rw [hpub]
      unfold dateExcluded
      exact decide_eq_true hold
    unfold build_regulations_from_news
    rw [List.filterMap_append, List.filterMap_append, List.filterMap_cons, hnone]
  · intro item2 hpub2 htext hfound
    have hd : ¬ dateExcluded item2.published_at (now - lookback * 86400) = true := by
      rw [hpub2]
      simp [dateExcluded]
    have hne : processItem fetch now known (now - lookback * 86400) item2 ≠ none := by
      unfold processItem
      rw [if_neg hd, if_neg htext, if_neg hfound]
      simp
    obtain ⟨r, hr⟩ := Option.ne_none_iff_exists'.mp hne
    refine ⟨r, hr, ?_⟩
    unfold processItem at hr
    rw [if_neg hd, if_neg htext, if_neg hfound] at hr
    injection hr with h'
    rw [← h']
    show dateISO (item2.published_at.getD now) = dateISO now
    rw [hpub2]
    rfl

/-- Page-fetch collaborator for the C4 witness. -/
def c4Fetch : String → String × String := fun _ => ("ai regulation copyright body", "http://w")

/-- A stale item (published 2024-06-05) for the C4 witness; `now` is
2024-06-10 and the lookback window is 3 days. -/
def c4OldItem : NewsItem := ⟨"old ai news", "http://old", some 1717545600⟩

/-- A timestamp-less item for the C4 witness. -/
def c4NoneItem : NewsItem := ⟨"fresh copyright news", "http://n", none⟩

/-- Witness for C4: the stale item is dropped; the timestamp-less item is
emitted with today's date. -/
theorem C4_date_filter_witness :
    build_regulations_from_news c4Fetch 1717977600 [c4OldItem] [] 3
      = build_regulations_from_news c4Fetch 1717977600 [] [] 3
    ∧ ∃ r, processItem c4Fetch 1717977600 [] (1717977600 - 3 * 86400) c4NoneItem = some r
        ∧ r.update_or_filed_date = dateISO 1717977600 := by
  have h := C4_date_filter c4Fetch 1717977600 [] 3 c4OldItem 1717545600 [] [] rfl (by decide)
  exact ⟨h.1, h.2 c4NoneItem rfl (by decide) (by decide)⟩

lemma lookupCountry_first :
    ∀ (l : List (String × List String)) (ts : String) (i : Nat) (hi : i < l.length),
    (∀ j, (hj : j < i) → entryMatches ts (l.get ⟨j, Nat.lt_trans hj hi⟩) = false) →
    entryMatches ts (l.get ⟨i, hi⟩) = true →
    lookupCountry ts l = (l.get ⟨i, hi⟩).1 := by
  intro l
  induction l with
  | nil => intro ts i hi; exact absurd hi (Nat.not_lt_zero i)
  | cons e rest ih =>
      intro ts i hi hbefore hmatch
      cases i with
      | zero =>
          have hm : entryMatches ts e = true := hmatch
          show (if entryMatches ts e = true then e.1 else lookupCountry ts rest) = e.1
          rw [if_pos hm]
      | succ n =>
          have hskip : entryMatches ts e = false := hbefore 0 (Nat.succ_pos n)
          have hstep : lookupCountry ts (e :: rest) = lookupCountry ts rest := by
            show (if entryMatches ts e = true then e.1 else lookupCountry ts rest)
              = lookupCountry ts rest
            rw [if_neg (by rw [hskip]; exact Bool.false_ne_true)]
          rw [hstep]
          exact ih ts n (Nat.lt_of_succ_lt_succ hi)
            (fun j hj => hbefore (j + 1) (Nat.succ_lt_succ hj)) hmatch

lemma lookupCountry_default :
    ∀ (l : List (String × List String)) (ts : String),
    (∀ e ∈ l, entryMatches ts e = false) → lookupCountry ts l = "기타" := by
  intro l
  induction l with
  | nil => intro ts _; rfl
  | cons e rest ih =>
      intro ts hall
      show (if entryMatches ts e = true then e.1 else lookupCountry ts rest) = "기타"
      rw [if_neg (by rw [hall e (List.mem_cons_self e rest)]; exact Bool.false_ne_true)]
      exact ih ts (fun x hx => hall x (List.mem_cons_of_mem e hx))

/-- C3: `extract_country` is deterministic and first-match in
table-declaration order: it returns the label of the first `countryTable`
entry any of whose keywords is a substring of the lowered
`title + " " + text`, and the catch-all `"기타"` when no entry matches. -/
theorem C3_extract_country_first_match (text title : String) :
    (∀ i, (hi : i < countryTable.length) →
      (∀ j, (hj : j < i) →
        entryMatches (lowerStr (title ++ " " ++ text))
          (countryTable.get ⟨j, Nat.lt_trans hj hi⟩) = false) →
      entryMatches (lowerStr (title ++ " " ++ text)) (countryTable.get ⟨i, hi⟩) = true →
      extract_country text title = (countryTable.get ⟨i, hi⟩).1)
    ∧ ((∀ e ∈ countryTable, entryMatches (lowerStr (title ++ " " ++ text)) e = false) →
      extract_country text title = "기타") := by
  constructor
  · intro i hi hbefore hmatch
    exact lookupCountry_first countryTable (lowerStr (title ++ " " ++ text)) i hi hbefore hmatch
  · intro hall
    exact lookupCountry_default countryTable (lowerStr (title ++ " " ++ text)) hall

set_option maxRecDepth 100000 in
/-- Witness for C3: a text containing keywords of both the EU (declared 2nd)
and the United States (declared later) resolves to the earlier-declared EU. -/
theorem C3_extract_country_first_match_witness :
    extract_country "european union united states" "" = "EU" := by
  have h := (C3_extract_country_first_match "european union united states" "").1 1 (by decide)
  exact h
    (fun j hj => by
      have hj0 : j = 0 := Nat.lt_one_iff.mp hj
      subst hj0
      exact (by decide :
        entryMatches (lowerStr ("" ++ " " ++ "european union united states"))
          (countryTable.get ⟨0, Nat.succ_pos 243⟩) = false))
    (by decide)

/-- C2: with `T` the lowered `title + " " + reason`: a text hitting exactly
one of the five signal categories scores exactly that category's weight
(30, 30, 15, 15 or 10); a text hitting all five scores exactly 100; every
score is at most 100; and the `min score 100` cap never reduces the additive
sum (the score always equals the plain sum of the five category
contributions, whose maximum is exactly 100). -/
theorem C2_risk_score_weights (title reason : String) :
    ((catHit unauthorizedKeywords (lowerStr (title ++ " " ++ reason)) = true
        ∧ catHit trainingKeywords (lowerStr (title ++ " " ++ reason)) = false
        ∧ catHit commercialKeywords (lowerStr (title ++ " " ++ reason)) = false
        ∧ catHit copyrightNewsKeywords (lowerStr (title ++ " " ++ reason)) = false
        ∧ catHit classActionKeywords (lowerStr (title ++ " " ++ reason)) = false) →
      calculate_news_risk_score title reason = 30)
    ∧ ((catHit unauthorizedKeywords (lowerStr (title ++ " " ++ reason)) = false
        ∧ catHit trainingKeywords (lowerStr (title ++ " " ++ reason)) = true
        ∧ catHit commercialKeywords (lowerStr (title ++ " " ++ reason)) = false
        ∧ catHit copyrightNewsKeywords (lowerStr (title ++ " " ++ reason)) = false
        ∧ catHit classActionKeywords (lowerStr (title ++ " " ++ reason)) = false) →
      calculate_news_risk_score title reason = 30)
    ∧ ((catHit unauthorizedKeywords (lowerStr (title ++ " " ++ reason)) = false
        ∧ catHit trainingKeywords (lowerStr (title ++ " " ++ reason)) = false
        ∧ catHit commercialKeywords (lowerStr (title ++ " " ++ reason)) = true
        ∧ catHit copyrightNewsKeywords (lowerStr (title ++ " " ++ reason)) = false
        ∧ catHit classActionKeywords (lowerStr (title ++ " " ++ reason)) = false) →
      calculate_news_risk_score title reason = 15)
    ∧ ((catHit unauthorizedKeywords (lowerStr (title ++ " " ++ reason)) = false
        ∧ catHit trainingKeywords (lowerStr (title ++ " " ++ reason)) = false
        ∧ catHit commercialKeywords (lowerStr (title ++ " " ++ reason)) = false
        ∧ catHit copyrightNewsKeywords (lowerStr (title ++ " " ++ reason)) = true
        ∧ catHit classActionKeywords (lowerStr (title ++ " " ++ reason)) = false) →
      calculate_news_risk_score title reason = 15)
    ∧ ((catHit unauthorizedKeywords (lowerStr (title ++ " " ++ reason)) = false
        ∧ catHit trainingKeywords (lowerStr (title ++ " " ++ reason)) = false
        ∧ catHit commercialKeywords (lowerStr (title ++ " " ++ reason)) = false
        ∧ catHit copyrightNewsKeywords (lowerStr (title ++ " " ++ reason)) = false
        ∧ catHit classActionKeywords (lowerStr (title ++ " " ++ reason)) = true) →
      calculate_news_risk_score title reason = 10)
    ∧ ((catHit unauthorizedKeywords (lowerStr (title ++ " " ++ reason)) = true
        ∧ catHit trainingKeywords (lowerStr (title ++ " " ++ reason)) = true
        ∧ catHit commercialKeywords (lowerStr (title ++ " " ++ reason)) = true
        ∧ catHit copyrightNewsKeywords (lowerStr (title ++ " " ++ reason)) = true
        ∧ catHit classActionKeywords (lowerStr (title ++ " " ++ reason)) = true) →
      calculate_news_risk_score title reason = 100)
    ∧ calculate_news_risk_score title reason ≤ 100
    ∧ calculate_news_risk_score title reason =
        (if catHit unauthorizedKeywords (lowerStr (title ++ " " ++ reason)) then 30 else 0)
        + (if catHit trainingKeywords (lowerStr (title ++ " " ++ reason)) then 30 else 0)
        + (if catHit commercialKeywords (lowerStr (title ++ " " ++ reason)) then 15 else 0)
        + (if catHit copyrightNewsKeywords (lowerStr (title ++ " " ++ reason)) then 15 else 0)
        + (if catHit classActionKeywords (lowerStr (title ++ " " ++ reason)) then 10 else 0) := by
  unfold calculate_news_risk_score
  cases h1 : catHit unauthorizedKeywords (lowerStr (title ++ " " ++ reason)) <;>
    cases h2 : catHit trainingKeywords (lowerStr (title ++ " " ++ reason)) <;>
      cases h3 : catHit commercialKeywords (lowerStr (title ++ " " ++ reason)) <;>
        cases h4 : catHit copyrightNewsKeywords (lowerStr (title ++ " " ++ reason)) <;>
          cases h5 : catHit classActionKeywords (lowerStr (title ++ " " ++ reason)) <;>
            simp_all

/-- Witness for C2: a single-category text scores that category's weight, an
all-category text scores exactly 100. -/
theorem C2_risk_score_weights_witness :
    calculate_news_risk_score "scrape" "" = 30
    ∧ calculate_news_risk_score "scrape train commercial copyright class action" "" = 100
    ∧ calculate_news_risk_score "unrelated text" "" ≤ 100 :=
  ⟨(C2_risk_score_weights "scrape" "").1 (by decide),
   ((C2_risk_score_weights "scrape train commercial copyright class action" "").2.2.2.2.2.1)
     (by decide),
   (C2_risk_score_weights "unrelated text" "").2.2.2.2.2.2.1⟩

lemma catHit_append (l1 l2 : List String) (text : String) :
    catHit (l1 ++ l2) text = (catHit l1 text || catHit l2 text) := by
  simp [catHit, List.any_append]

/-- A docket-derived record whose AI-snippet text is exactly `"820"`, with an
empty nature-of-suit field: its concatenated scoring text equals the news
scoring text of `title="820"`, `reason=""`. -/
def c7Case : CLCaseSummary :=
  ⟨0, "", "", "", "", "", "", "", "", "", "", "", "", "", "", "", "", "820", ""⟩

/-- C7 counterexample: equal concatenated texts and no nature-of-suit code,
yet the news scorer returns 15 (its copyright category has the extra text
keyword `"820"`) while the docket scorer returns 0 — refuting the claimed
equality of the two scorers on equal text. -/
theorem C7_counterexample :
    ("820" ++ " " ++ "" : String) = c7Case.extracted_ai_snippet ++ " " ++ c7Case.extracted_causes
    ∧ c7Case.nature_of_suit = ""
    ∧ calculate_news_risk_score "820" "" = 15
    ∧ calculate_case_risk_score c7Case = 0 :=
  ⟨rfl, rfl, rfl, rfl⟩

/-- C7 (amended): the two scorers agree on equal concatenated text provided
additionally that the text does not contain `"820"` (which only the news
scorer treats as a copyright-category text keyword) and the docket record has
no truthy nature-of-suit field containing `"820"`. -/
theorem C7_amended_scorers_agree (title reason : String) (c : CLCaseSummary)
    (htext : title ++ " " ++ reason = c.extracted_ai_snippet ++ " " ++ c.extracted_causes)
    (hnos : (c.nature_of_suit ≠ "" && strContains c.nature_of_suit "820") = false)
    (h820 : strContains (lowerStr (title ++ " " ++ reason)) "820" = false) :
    calculate_news_risk_score title reason = calculate_case_risk_score c := by
  have hT : lowerStr (title ++ " " ++ reason)
      = lowerStr (c.extracted_ai_snippet ++ " " ++ c.extracted_causes) := by rw [htext]
  unfold calculate_news_risk_score calculate_case_risk_score
  rw [← hT]
  have hcp : catHit copyrightNewsKeywords (lowerStr (title ++ " " ++ reason))
      = catHit copyrightCaseKeywords (lowerStr (title ++ " " ++ reason)) := by
    rw [show copyrightNewsKeywords = copyrightCaseKeywords ++ ["820"] from rfl]
    rw [catHit_append]
    have h820' : catHit ["820"] (lowerStr (title ++ " " ++ reason)) = false := by
      simp [catHit, h820]
    rw [h820', Bool.or_false]
  simp only [hcp, hnos, Bool.false_or]

/-- A docket-derived record whose scoring text equals the news text
`"copyright "`, used to witness the amended C7. -/
def c7EqCase : CLCaseSummary :=
  ⟨0, "", "", "", "", "", "", "", "", "", "", "", "", "", "", "", "", "copyright", ""⟩

/-- Witness for the amended C7 at a concrete equal-text pair. -/
theorem C7_amended_scorers_agree_witness :
    calculate_news_risk_score "copyright" "" = calculate_case_risk_score c7EqCase :=
  C7_amended_scorers_agree "copyright" "" c7EqCase rfl (by decide) (by decide)

/-- Page-fetch collaborator for C8: the body text of the example item. -/
def c8Fetch : String → String × String :=
  fun _ => ("training data scraped from Common Crawl", "http://a")

/-- The C8 example item: `title = "EU AI Act copyright ruling"`,
`url = "http://a"`, published "today" (= `now`, 2024-06-10 UTC). -/
def c8Item : NewsItem := ⟨"EU AI Act copyright ruling", "http://a", some 1717977600⟩

set_option maxRecDepth 100000 in
set_option maxHeartbeats 2000000 in
/-- C8 counterexample: on the example input the pipeline's risk score (as
computed by `render_markdown`, i.e. on `article_title` and the derived
`reason`, not on the fetched body text) is 15, not the claimed 75: the body
keywords "training ... scraped ... common crawl" never reach the scorer, and
the derived reason is the canned copyright sentence, so only the copyright
category (+15) fires. -/
theorem C8_counterexample :
    (build_regulations_from_news c8Fetch 1717977600 [c8Item] [] 3).map newsRowScore = [15]
    ∧ (15 : Nat) ≠ 75 :=
  ⟨by rfl, by decide⟩

set_option maxRecDepth 100000 in
set_option maxHeartbeats 2000000 in
/-- C8 (amended): the example input yields `country = "EU"`,
`subject = "EU AI Act"`, and a risk score of exactly 15 (only the
copyright-litigation category fires, because the scorer sees only the title
and the derived reason). -/
theorem C8_amended_end_to_end :
    (build_regulations_from_news c8Fetch 1717977600 [c8Item] [] 3).map
        (fun r => (r.country, r.case_title, newsRowScore r))
      = [("EU", "EU AI Act", 15)] := by
  rfl

/-- Failing docket-fetch collaborator for C5 (models an HTTP 500/timeout:
`_get` returns `None`). -/
def c5NoDocket : Int → Option DocketPayload := fun _ => none

/-- Failing parties-fetch collaborator for C5. -/
def c5NoParties : Int → Option (List Party) := fun _ => none

/-- Erroring court-metadata collaborator for C5. -/
def c5CourtErr : String → CourtFetchResult := fun _ => CourtFetchResult.err

/-- C5 counterexample: on a failed docket fetch the returned record is not
all-sentinel — `court_api_url`, `complaint_link`, `extracted_ai_snippet` and
`docket_candidates` are empty strings, refuting "no string field of the
returned record is an empty or absent value". -/
theorem C5_counterexample :
    (build_case_summary_from_docket_id c5NoDocket c5CourtErr c5NoParties 1).map
        (fun r => (r.complaint_link, r.court_api_url, r.extracted_ai_snippet,
          r.docket_candidates))
      = some ("", "", "", "") := by
  rfl

set_option maxHeartbeats 1000000 in
/-- C5 (amended): for every non-zero docket id, when the docket fetch and the
parties fetch fail, `build_case_summary_from_docket_id` still returns a
record (no error), whose payload-derived string fields all carry non-empty
sentinels (`"미확인"`, or `"진행중/미확인"` for the status), while the
placeholder fields `court_api_url`, `complaint_link`, `extracted_ai_snippet`
and `docket_candidates` are empty strings. -/
theorem C5_amended_failure_sentinels (docket_id : Int)
    (courtResp : String → CourtFetchResult) (h : docket_id ≠ 0) :
    build_case_summary_from_docket_id (fun _ => none) courtResp (fun _ => none) docket_id
      = some ⟨docket_id, "미확인", "미확인", "미확인", "미확인", "", "미확인",
          "진행중/미확인", "미확인", "미확인", "미확인", "미확인", "미확인",
          "미확인", "", "미확인", "미확인", "", ""⟩ := by
  unfold build_case_summary_from_docket_id
  rw [if_neg h]
  simp [safe_str, pyOrO, pyOrStr, trimChars, emptyDocket, fetch_court_metadata,
    status_from_docket, format_parties, joinSep]
  exact fun hc => absurd rfl hc

/-- Witness for the amended C5 at docket id 1. -/
theorem C5_amended_failure_sentinels_witness :
    build_case_summary_from_docket_id (fun _ => none) c5CourtErr (fun _ => none) 1
      = some ⟨1, "미확인", "미확인", "미확인", "미확인", "", "미확인",
          "진행중/미확인", "미확인", "미확인", "미확인", "미확인", "미확인",
          "미확인", "", "미확인", "미확인", "", ""⟩ :=
  C5_amended_failure_sentinels 1 c5CourtErr (by decide)

/-- C10: the known-case override is asymmetric across fields.  With `E` the
enrich payload selected by `enrich_from_known`, the `country`, `case_title`
and `case_number` overrides are used only when non-empty (an empty or absent
value falls back to heuristic extraction or the `"N/A"` sentinel), whereas
`reason` uses dictionary-key presence: a present `reason` — even the empty
string — is used verbatim, and the reason heuristic runs only when the key
is absent. -/
theorem C10_enrich_fallback_asymmetry (fetch : String → String × String) (now : Int)
    (known : List KnownCase) (cutoff : Int) (item : NewsItem)
    (hdate : dateExcluded item.published_at cutoff = false)
    (htext : (fetch item.url).1 ≠ "")
    (hfound : foundKeywords item.title (fetch item.url).1 ≠ []) :
    ∃ r, processItem fetch now known cutoff item = some r
      ∧ ∀ E, E = enrich_from_known (fetch item.url).1 item.title known →
          (E.country = some "" → r.country = extract_country (fetch item.url).1 item.title)
          ∧ (E.country = none → r.country = extract_country (fetch item.url).1 item.title)
          ∧ (∀ s, E.country = some s → s ≠ "" → r.country = s)
          ∧ (E.case_title = some "" →
              r.case_title = extract_regulation_subject (fetch item.url).1 item.title)
          ∧ (E.case_title = none →
              r.case_title = extract_regulation_subject (fetch item.url).1 item.title)
          ∧ (∀ s, E.case_title = some s → s ≠ "" → r.case_title = s)
          ∧ (E.case_number = some "" → r.case_number = "N/A")
          ∧ (E.case_number = none → r.case_number = "N/A")
          ∧ (∀ s, E.case_number = some s → s ≠ "" → r.case_number = s)
          ∧ (∀ s, E.reason = some s → r.reason = s)
          ∧ (E.reason = none →
              r.reason = reason_heuristic (item.title ++ " " ++ (fetch item.url).1)) := by
  have hd : ¬ dateExcluded item.published_at cutoff = true := by
    rw [hdate]
    exact Bool.false_ne_true
  have hne : processItem fetch now known cutoff item ≠ none := by
    unfold processItem
    rw [if_neg hd, if_neg htext, if_neg hfound]
    simp
  obtain ⟨r, hr⟩ := Option.ne_none_iff_exists'.mp hne
  refine ⟨r, hr, ?_⟩
  intro E hE
  subst hE
  unfold processItem at hr
  rw [if_neg hd, if_neg htext, if_neg hfound] at hr
  injection hr with h'
  rw [← h']
  refine ⟨?_, ?_, ?_, ?_, ?_, ?_, ?_, ?_, ?_, ?_, ?_⟩
  · intro hc
    show pyOrD (enrich_from_known (fetch item.url).1 item.title known).country _ = _
    rw [hc]
    simp [pyOrD]
  · intro hc
    show pyOrD (enrich_from_known (fetch item.url).1 item.title known).country _ = _
    rw [hc]
    rfl
  · intro s hc hs
    show pyOrD (enrich_from_known (fetch item.url).1 item.title known).country _ = _
    rw [hc]
    simp [pyOrD, hs]
  · intro hc
    show pyOrD (enrich_from_known (fetch item.url).1 item.title known).case_title _ = _
    rw [hc]
    simp [pyOrD]
  · intro hc
    show pyOrD (enrich_from_known (fetch item.url).1 item.title known).case_title _ = _
    rw [hc]
    rfl
  · intro s hc hs
    show pyOrD (enrich_from_known (fetch item.url).1 item.title known).case_title _ = _
    rw [hc]
    simp [pyOrD, hs]
  · intro hc
    show pyOrD (enrich_from_known (fetch item.url).1 item.title known).case_number _ = _
    rw [hc]
    simp [pyOrD]
  · intro hc
    show pyOrD (enrich_from_known (fetch item.url).1 item.title known).case_number _ = _
    rw [hc]
    rfl
  · intro s hc hs
    show pyOrD (enrich_from_known (fetch item.url).1 item.title known).case_number _ = _
    rw [hc]
    simp [pyOrD, hs]
  · intro s hc
    show ((enrich_from_known (fetch item.url).1 item.title known).reason).getD _ = _
    rw [hc]
    rfl
  · intro hc
    show ((enrich_from_known (fetch item.url).1 item.title known).reason).getD _ = _
    rw [hc]
    rfl

/-- Known-case table for the C10 witness: one entry, triggered by
`"trigger"`, supplying an empty-string `country` override and an
empty-string `reason` override. -/
def c10Known : List KnownCase := [⟨["trigger"], ⟨some "", none, none, some ""⟩⟩]

/-- Page-fetch collaborator for the C10 witness. -/
def c10Fetch : String → String × String := fun _ => ("governance text", "http://k")

/-- News item for the C10 witness; its title contains the trigger keyword. -/
def c10Item : NewsItem := ⟨"trigger copyright news", "http://k", none⟩

set_option maxRecDepth 100000 in
/-- Witness for C10: the empty-string `country` override falls back to
heuristic country extraction, while the empty-string `reason` override is
used verbatim. -/
theorem C10_enrich_fallback_asymmetry_witness :
    ∃ r, processItem c10Fetch 0 c10Known 0 c10Item = some r
      ∧ r.country = extract_country "governance text" "trigger copyright news"
      ∧ r.reason = "" := by
  obtain ⟨r, hr, hprops⟩ :=
    C10_enrich_fallback_asymmetry c10Fetch 0 c10Known 0 c10Item rfl (by decide) (by decide)
  have h := hprops _ rfl
  exact ⟨r, hr, h.1 (by decide), h.2.2.2.2.2.2.2.2.2.1 "" (by decide)⟩
